import Mathlib

/-!
Shallow embedding of the supportbot repository (a Telegram support-ticket
service) and proofs checking the specification's claims against it.

The embedding models the two business tables (`requests`, `messages`) as
lists of records inside a `DB` value, and each route or bot handler as a
pure function from a `DB` (plus its request parameters and the current
time) to a new `DB` and a response.  Machine time is abstracted to `Nat`
instants except where serialization formatting matters, where a structured
`PyDateTime`/`IsoTimestamp` model is used.  Outbound Telegram sends are
modeled by explicit boolean outcomes where a claim depends on them, and as
succeeding otherwise.  Uncaught Python exceptions escaping a handler are
modeled by a dedicated `raised` outcome.
-/

namespace SupportBot

/-- Row of the `requests` table (`app/database/models.py`); the legacy
`database.py` / `supportbot.py init_db` variants of the schema lack
`updated_at`, which is modeled as simply staying at its creation value for
operations that go through them. -/
structure Request where
  id : Int
  user_id : Int
  issue : String
  assigned_admin : Option Int
  status : String
  solution : Option String
  created_at : Nat
  updated_at : Nat
deriving Repr, DecidableEq

/-- Row of the `messages` table. -/
structure Message where
  id : Int
  request_id : Int
  sender_id : Int
  sender_type : String
  message : String
  timestamp : Nat
deriving Repr, DecidableEq

/-- The relational store: the two business tables plus their id sequences. -/
structure DB where
  requests : List Request
  messages : List Message
  nextRequestId : Int
  nextMessageId : Int
deriving Repr, DecidableEq

/-- A store with no rows yet. -/
def DB.empty : DB := ⟨[], [], 1, 1⟩

/-- Models `db.query(Request).filter(Request.id == request_id).first()`. -/
def findRequest (db : DB) (rid : Int) : Option Request :=
  db.requests.find? (fun r => decide (r.id = rid))

/-- Write-back of a mutated ORM row: the row with the given primary key is
replaced (ids are unique, so at most one row changes). -/
def updateRequests (l : List Request) (rid : Int) (f : Request → Request) : List Request :=
  l.map (fun r => if r.id = rid then f r else r)

/-- Outcome of an HTTP route: a payload, or an error status with detail. -/
inductive ApiResp (α : Type) where
  | ok (value : α)
  | error (code : Nat) (detail : String)
deriving Repr, DecidableEq

/-- POST /support-request (`app/api/routes/support.py create_request`).
The falsy-field check `if not user_id or not issue` raises
HTTPException(400), but that raise sits inside a `try` whose blanket
`except Exception` clause catches it and re-raises HTTPException(500), so
the client-visible status is 500 (detail strings abstracted to the original
message).  On valid input one pending request and one seed user message are
inserted and the new id returned; the admin-group notification runs as a
background task after the response. -/
def create_request (db : DB) (now : Nat) (user_id : Option Int) (issue : Option String) :
    DB × ApiResp Int :=
  match user_id, issue with
  | some uid, some iss =>
    if uid ≠ 0 ∧ iss ≠ "" then
      let rid := db.nextRequestId
      let req : Request := ⟨rid, uid, iss, none, "pending", none, now, now⟩
      let msg : Message := ⟨db.nextMessageId, rid, uid, "user", iss, now⟩
      (⟨db.requests ++ [req], db.messages ++ [msg], rid + 1, db.nextMessageId + 1⟩,
        .ok rid)
    else (db, .error 500 "Missing required fields")
  | _, _ => (db, .error 500 "Missing required fields")

/-- POST /support-request (`supportbot.py support_request_handler`).  Falsy
fields get a direct JSONResponse 400.  Rows go through the legacy
`database.py` models: the request status defaults to "Open" and there is no
updated_at column (modeled as equal to created_at). -/
def support_request_handler (db : DB) (now : Nat) (user_id : Option Int)
    (issue : Option String) : DB × ApiResp Int :=
  match user_id, issue with
  | some uid, some iss =>
    if uid ≠ 0 ∧ iss ≠ "" then
      let rid := db.nextRequestId
      let req : Request := ⟨rid, uid, iss, none, "Open", none, now, now⟩
      let msg : Message := ⟨db.nextMessageId, rid, uid, "user", iss, now⟩
      (⟨db.requests ++ [req], db.messages ++ [msg], rid + 1, db.nextMessageId + 1⟩,
        .ok rid)
    else (db, .error 400 "Missing user_id or issue")
  | _, _ => (db, .error 400 "Missing user_id or issue")

/-- Free-text handler creating a request from the issue description
(`app/bot/handlers/support.py collect_issue`).  Returns the confirmed new
request id, or `none` when the user's requesting_support flag is unset and
the message is not consumed. -/
def collect_issue (db : DB) (requesting_support : Bool) (now : Nat) (user_id : Int)
    (issue_text : String) : DB × Option Int :=
  if requesting_support then
    let rid := db.nextRequestId
    let req : Request := ⟨rid, user_id, issue_text, none, "pending", none, now, now⟩
    let msg : Message := ⟨db.nextMessageId, rid, user_id, "user", issue_text, now⟩
    (⟨db.requests ++ [req], db.messages ++ [msg], rid + 1, db.nextMessageId + 1⟩,
      some rid)
  else (db, none)

/-- Ids already handed out lie below the sequences' next values, so a fresh
id collides with no existing request and no stored message references it. -/
def DB.WF (db : DB) : Prop :=
  (∀ r ∈ db.requests, r.id < db.nextRequestId) ∧
  (∀ m ∈ db.messages, m.request_id < db.nextRequestId)

instance (db : DB) : Decidable db.WF := by
  unfold DB.WF; infer_instance

/-- The store holds exactly one request with the given id, it is pending
and carries the given issue text, and exactly one message belongs to it,
sent by the user and equal to the issue text. -/
def createdOne (db : DB) (rid : Int) (issue : String) : Prop :=
  db.requests.countP (fun r => decide (r.id = rid)) = 1 ∧
  (∀ r ∈ db.requests, r.id = rid → r.status = "pending" ∧ r.issue = issue) ∧
  db.messages.countP (fun m => decide (m.request_id = rid)) = 1 ∧
  (∀ m ∈ db.messages, m.request_id = rid → m.sender_type = "user" ∧ m.message = issue)

instance (db : DB) (rid : Int) (issue : String) : Decidable (createdOne db rid issue) := by
  unfold createdOne; infer_instance

/-- Inserting a fresh pending request and its seed user message yields a
store satisfying `createdOne` at the fresh id. -/
theorem createdOne_insert (db : DB) (now : Nat) (uid : Int) (iss : String) (hWF : db.WF) :
    createdOne
      ⟨db.requests ++ [⟨db.nextRequestId, uid, iss, none, "pending", none, now, now⟩],
        db.messages ++ [⟨db.nextMessageId, db.nextRequestId, uid, "user", iss, now⟩],
        db.nextRequestId + 1, db.nextMessageId + 1⟩ db.nextRequestId iss := by
  obtain ⟨hr, hm⟩ := hWF
  refine ⟨?_, ?_, ?_, ?_⟩
  · rw [List.countP_append]
    have h0 : db.requests.countP (fun r => decide (r.id = db.nextRequestId)) = 0 := by
      rw [List.countP_eq_zero]
      intro r hrm
      simpa using Int.ne_of_lt (hr r hrm)
    simp [h0]
  · intro r hrm hid
    rcases List.mem_append.1 hrm with h | h
    · exact absurd hid (Int.ne_of_lt (hr r h))
    · rcases List.mem_singleton.1 h with rfl
      exact ⟨rfl, rfl⟩
  · rw [List.countP_append]
    have h0 : db.messages.countP (fun m => decide (m.request_id = db.nextRequestId)) = 0 := by
      rw [List.countP_eq_zero]
      intro m hmm
      simpa using Int.ne_of_lt (hm m hmm)
    simp [h0]
  · intro m hmm hid
    rcases List.mem_append.1 hmm with h | h
    · exact absurd hid (Int.ne_of_lt (hm m h))
    · rcases List.mem_singleton.1 h with rfl
      exact ⟨rfl, rfl⟩

/-- C1: for every valid (user_id, issue) pair, POST /support-request
(`create_request`) and the bot's collect_issue flow each create exactly one
request with status "pending" and that issue, plus exactly one associated
message with sender_type "user" equal to the issue; the returned id names
that request. -/
theorem create_request_pending_seed (db : DB) (now : Nat) (uid : Int) (iss : String)
    (hWF : db.WF) (hu : uid ≠ 0) (hi : iss ≠ "") :
    (create_request db now (some uid) (some iss)).2 = .ok db.nextRequestId ∧
    createdOne (create_request db now (some uid) (some iss)).1 db.nextRequestId iss ∧
    (collect_issue db true now uid iss).2 = some db.nextRequestId ∧
    createdOne (collect_issue db true now uid iss).1 db.nextRequestId iss := by
  have hcond : uid ≠ 0 ∧ iss ≠ "" := ⟨hu, hi⟩
  refine ⟨?_, ?_, ?_, ?_⟩
  · simp [create_request, hcond]
  · simpa [create_request, hcond] using createdOne_insert db now uid iss hWF
  · simp [collect_issue]
  · simpa [collect_issue] using createdOne_insert db now uid iss hWF

/-- Witness for C1 on a concrete store and payload. -/
theorem create_request_pending_seed_witness :
    DB.empty.WF ∧ (111 : Int) ≠ 0 ∧ "app crashes" ≠ "" ∧
    (create_request DB.empty 7 (some 111) (some "app crashes")).2 = .ok 1 ∧
    createdOne (create_request DB.empty 7 (some 111) (some "app crashes")).1 1 "app crashes" := by
  refine ⟨by decide, by decide, by decide, ?_, ?_⟩
  · exact (create_request_pending_seed DB.empty 7 111 "app crashes" (by decide) (by decide)
      (by decide)).1
  · exact (create_request_pending_seed DB.empty 7 111 "app crashes" (by decide) (by decide)
      (by decide)).2.1

/-- POST /chat/.../messages (`app/api/routes/chat.py add_message`).  The
request is looked up first: a missing id gives 404 with nothing mutated;
otherwise the message is inserted (timestamp from the model default) and
the parent request's updated_at refreshed to the message timestamp. -/
def add_message (db : DB) (now : Nat) (request_id : Int) (sender_id : Int)
    (sender : String) (text : String) : DB × ApiResp Message :=
  match findRequest db request_id with
  | none =>
    (db, .error 404 ("Support request with ID " ++ toString request_id ++ " not found"))
  | some _ =>
    let msg : Message := ⟨db.nextMessageId, request_id, sender_id, sender, text, now⟩
    (⟨updateRequests db.requests request_id (fun r => { r with updated_at := now }),
      db.messages ++ [msg], db.nextRequestId, db.nextMessageId + 1⟩, .ok msg)

/-- POST /chat/.../message (`supportbot.py send_message`).  After the falsy
check on the payload, the message row is inserted and committed BEFORE the
request is looked up, so a missing request still gains a committed message
row and then receives the 404 response. -/
def send_message (db : DB) (now : Nat) (request_id : Int) (sender_id : Option Int)
    (sender : Option String) (text : Option String) : DB × ApiResp Unit :=
  match sender_id, sender, text with
  | some sid, some sty, some txt =>
    if sid ≠ 0 ∧ sty ≠ "" ∧ txt ≠ "" then
      let msg : Message := ⟨db.nextMessageId, request_id, sid, sty, txt, now⟩
      let db1 : DB := ⟨db.requests, db.messages ++ [msg], db.nextRequestId,
        db.nextMessageId + 1⟩
      match findRequest db1 request_id with
      | none => (db1, .error 404 "Request not found")
      | some _ => (db1, .ok ())
    else (db, .error 400 "Missing required fields")
  | _, _, _ => (db, .error 400 "Missing required fields")

/-- Solve-flow free-text handler (`app/bot/handlers/admin.py
handle_solution_message`).  Takes the solving_request_id user-data entry and
returns the new store, the new entry, and whether the text was consumed.  A
missing request replies an error, clears the entry and mutates nothing; on
success the request gets the solution, status "solved" and a refreshed
updated_at, and the resolution note is appended with sender_type "admin". -/
def handle_solution_message (db : DB) (now : Nat) (solving_request_id : Option Int)
    (admin_id : Int) (solution_text : String) : DB × Option Int × Bool :=
  match solving_request_id with
  | none => (db, none, false)
  | some rid =>
    match findRequest db rid with
    | none => (db, none, true)
    | some _ =>
      let reqs := updateRequests db.requests rid
        (fun r => { r with
                    solution := some solution_text, status := "solved",
                    updated_at := now })
      let msg : Message := ⟨db.nextMessageId, rid, admin_id, "admin",
        "This request has been marked as resolved with solution: " ++ solution_text, now⟩
      (⟨reqs, db.messages ++ [msg], db.nextRequestId, db.nextMessageId + 1⟩, none, true)

/-- C2 (code bug): with no request 999 stored, the chat-route add_message
and the solve flow report not-found and mutate nothing, but supportbot's
send_message commits the message row before looking the request up: it
answers 404 yet leaves the orphan message for id 999 in the store. -/
theorem send_message_orphan_row :
    add_message DB.empty 5 999 1 "user" "hi" =
      (DB.empty, .error 404 "Support request with ID 999 not found") ∧
    handle_solution_message DB.empty 5 (some 999) 7 "fix" = (DB.empty, none, true) ∧
    (send_message DB.empty 5 999 (some 1) (some "user") (some "hi")).2 =
      .error 404 "Request not found" ∧
    (send_message DB.empty 5 999 (some 1) (some "user") (some "hi")).1.messages =
      [⟨1, 999, 1, "user", "hi", 5⟩] := by
  refine ⟨by decide, by decide, by decide, by decide⟩

/-- Python str.split with an explicit one-character separator, on the
character list: never empty, keeps empty fields. -/
def splitChars (sep : Char) : List Char → List (List Char)
  | [] => [[]]
  | c :: cs =>
    let r := splitChars sep cs
    if c = sep then [] :: r
    else
      match r with
      | [] => [[c]]
      | h :: t => (c :: h) :: t

/-- Python str.split(sep) for a one-character separator. -/
def pySplit (s : String) (sep : Char) : List String :=
  (splitChars sep s.data).map (fun l => String.mk l)

/-- Digits of a decimal literal: some value when nonempty and all digits. -/
def decDigits (l : List Char) : Option Nat :=
  if l ≠ [] ∧ ∀ c ∈ l, c.isDigit then
    some (l.foldl (fun n c => n * 10 + (c.toNat - 48)) 0)
  else none

/-- Python int(str) on a callback field: optional sign then decimal digits,
none when the cast would raise ValueError.  (Whitespace and underscore
literals cannot occur in a field produced by split("_") on callback data
and are not modeled.) -/
def pyToInt (s : String) : Option Int :=
  match s.data with
  | [] => none
  | c :: cs =>
    if c = '-' then (decDigits cs).map (fun n => -(n : Int))
    else if c = '+' then (decDigits cs).map (fun n => (n : Int))
    else (decDigits (c :: cs)).map (fun n => (n : Int))

/-- How a callback handler invocation ends: a query.answer with the given
text, an edit_message_text with the given text, a normal return with no
answer, or an uncaught exception escaping the handler. -/
inductive CbOutcome where
  | answered (text : String)
  | edited (text : String)
  | noAnswer
  | raised
deriving Repr, DecidableEq

/-- Python truthiness of a nullable integer column: NULL and 0 are falsy. -/
def truthy : Option Int → Bool
  | none => false
  | some n => n != 0

/-- Assign branch of `app/bot/handlers/support.py handle_callback_query`
(lines 209-260): rejects an already-assigned request via an
`is not None` check; otherwise stores the admin, sets status "assigned",
refreshes updated_at and appends a system message recording the
assignment. -/
def cb_assign (db : DB) (now : Nat) (request_id : Int) (admin_id : Int)
    (admin_name : String) : DB × CbOutcome :=
  match findRequest db request_id with
  | none => (db, .answered "Request not found")
  | some req =>
    if req.assigned_admin.isSome then (db, .answered "This request is already assigned")
    else
      let reqs := updateRequests db.requests request_id
        (fun r => { r with
                    assigned_admin := some admin_id, status := "assigned",
                    updated_at := now })
      let msg : Message := ⟨db.nextMessageId, request_id, admin_id, "system",
        "Request assigned to admin " ++ admin_name, now⟩
      (⟨reqs, db.messages ++ [msg], db.nextRequestId, db.nextMessageId + 1⟩,
        .answered "Request assigned successfully")

/-- Inline-button callback dispatcher (`app/bot/handlers/support.py
handle_callback_query`).  `admins` is the Admin table consulted by the chat
branch, `solving` the solving_request_id user-data entry.  Arity below two
is answered "Invalid action" before any cast; the unguarded int() casts on
the id fields raise on non-numeric data.  Outbound sends are modeled as
succeeding. -/
def handle_callback_query (db : DB) (admins : List (Int × String)) (now : Nat)
    (data : String) (admin_id : Int) (admin_name : String) (solving : Option Int) :
    DB × Option Int × CbOutcome :=
  match pySplit data '_' with
  | action :: p1 :: rest =>
    match pyToInt p1 with
    | none => (db, solving, .raised)
    | some rid =>
      match findRequest db rid with
      | none => (db, solving, .answered "Request not found")
      | some req =>
        if action = "assign" then
          let fromCb : Option Int :=
            match rest with
            | [] => some admin_id
            | p2 :: _ => pyToInt p2
          match fromCb with
          | none => (db, solving, .raised)
          | some cbA =>
            if cbA ≠ admin_id then (db, solving, .answered "Invalid admin ID in callback")
            else
              let r := cb_assign db now rid admin_id admin_name
              (r.1, solving, r.2)
        else if action = "view" then (db, solving, .noAnswer)
        else if action = "chat" then
          if req.assigned_admin ≠ some admin_id ∧ req.assigned_admin.isSome then
            match req.assigned_admin.bind (fun a => admins.find? (fun p => decide (p.1 = a))) with
            | some p => (db, solving, .answered ("This request is assigned to " ++ p.2))
            | none => (db, solving, .answered "Opening chat interface...")
          else if req.assigned_admin.isNone then
            let reqs := updateRequests db.requests rid
              (fun r => { r with
                          assigned_admin := some admin_id, updated_at := now,
                          status := "assigned" })
            let msg : Message := ⟨db.nextMessageId, rid, admin_id, "system",
              "This request has been assigned to " ++ admin_name, now⟩
            (⟨reqs, db.messages ++ [msg], db.nextRequestId, db.nextMessageId + 1⟩,
              solving, .answered "Opening chat interface...")
          else (db, solving, .answered "Opening chat interface...")
        else if action = "solve" ∨ action = "resolve" then
          (db, some rid, .answered "Please provide solution details in our private chat")
        else (db, solving, .answered "Unknown action")
  | _ => (db, solving, .answered "Invalid action")

/-- Store update of `supportbot.py assign_request` (lines 759-790) plus
the final callback answers: the already-assigned guard is Python
truthiness on the stored column, so an assigned admin id 0 counts as
unassigned; the sqlite schema has no updated_at and no system message is
appended. -/
def sb_assign (db : DB) (rid : Int) (admin_id : Int) : DB × CbOutcome :=
  match findRequest db rid with
  | none => (db, .answered "Error: Request not found.")
  | some req =>
    if truthy req.assigned_admin then
      (db, .answered "This request is already assigned to an admin.")
    else
      (⟨updateRequests db.requests rid
          (fun r => { r with assigned_admin := some admin_id, status := "Assigned" }),
        db.messages, db.nextRequestId, db.nextMessageId⟩,
        .answered "✅ You have been assigned to this request!")

/-- Entry of `supportbot.py assign_request`: the request id is read as
int(query.data.split("_")[1]) with no arity validation, so a missing field
raises IndexError and a non-numeric one raises ValueError. -/
def sb_assign_request (db : DB) (data : String) (admin_id : Int) : DB × CbOutcome :=
  match pySplit data '_' with
  | _ :: p1 :: _ =>
    match pyToInt p1 with
    | none => (db, .raised)
    | some rid => sb_assign db rid admin_id
  | _ => (db, .raised)

/-- Command-flow assignment (`app/bot/handlers/admin.py assign_request`,
lines 11-41): truthiness guard on assigned_admin, status "in_progress",
refreshed updated_at, and an assignment note appended with sender_type
"admin".  Returns whether the assignment happened. -/
def assign_request (db : DB) (now : Nat) (request_id : Int) (admin_id : Int) : DB × Bool :=
  match findRequest db request_id with
  | none => (db, false)
  | some req =>
    if truthy req.assigned_admin then (db, false)
    else
      let reqs := updateRequests db.requests request_id
        (fun r => { r with
                    assigned_admin := some admin_id, status := "in_progress",
                    updated_at := now })
      let msg : Message := ⟨db.nextMessageId, request_id, admin_id, "admin",
        "Request assigned to admin " ++ toString admin_id, now⟩
      (⟨reqs, db.messages ++ [msg], db.nextRequestId, db.nextMessageId + 1⟩, true)

/-- Assign branch of `app/bot/handlers/admin.py handle_admin_callbacks`
(lines 262-332), after the callback fields are parsed: guards on status
"pending", sets status "in_progress" and the admin, refreshes updated_at,
and appends the ownership note with sender_type "admin". -/
def handle_admin_assign (db : DB) (now : Nat) (request_id : Int) (admin_id : Int) :
    DB × CbOutcome :=
  match findRequest db request_id with
  | none => (db, .edited ("Request #" ++ toString request_id ++ " not found."))
  | some req =>
    if req.status ≠ "pending" then
      (db, .edited ("Request #" ++ toString request_id ++ " is already " ++ req.status ++ "."))
    else
      let reqs := updateRequests db.requests request_id
        (fun r => { r with
                    status := "in_progress", assigned_admin := some admin_id,
                    updated_at := now })
      let msg : Message := ⟨db.nextMessageId, request_id, admin_id, "admin",
        "I have taken ownership of this request and will assist you shortly.", now⟩
      (⟨reqs, db.messages ++ [msg], db.nextRequestId, db.nextMessageId + 1⟩,
        .edited ("You have been assigned to request #" ++ toString request_id ++ "."))

/-- Looking a row up after an id-preserving write-back finds the mutated
row. -/
theorem find?_updateRequests (l : List Request) (rid : Int) (f : Request → Request)
    (hid : ∀ r, (f r).id = r.id) :
    (updateRequests l rid f).find? (fun r => decide (r.id = rid)) =
      (l.find? (fun r => decide (r.id = rid))).map f := by
  induction l with
  | nil => rfl
  | cons a l ih =>
    unfold updateRequests at *
    by_cases h : a.id = rid <;>
      simp [List.find?_cons, h, hid a, ih]

/-- Same statement at the level of a rebuilt store. -/
theorem findRequest_update (db : DB) (rid : Int) (f : Request → Request)
    (ms : List Message) (nr nm : Int) (hid : ∀ r, (f r).id = r.id) :
    findRequest ⟨updateRequests db.requests rid f, ms, nr, nm⟩ rid =
      (findRequest db rid).map f :=
  find?_updateRequests db.requests rid f hid

/-- One pending unassigned ticket, no messages yet. -/
def samplePending : DB := ⟨[⟨1, 42, "app crashes", none, "pending", none, 0, 0⟩], [], 2, 1⟩

/-- C3 counterexample: a successful assignment through the admin-module
`assign_request` appends its assignment note with sender_type "admin", not
"system" as the claim states. -/
theorem assign_request_message_not_system :
    (assign_request samplePending 9 1 5).2 = true ∧
    (assign_request samplePending 9 1 5).1.messages.map (fun m => m.sender_type) =
      ["admin"] := by
  refine ⟨by decide, by decide⟩

/-- C3 (amended): a successful assign on an unassigned request stores the
acting admin, moves status to the claimed value ("assigned" in the
callback-router path, "in_progress" in the admin-module paths), refreshes
updated_at and appends one note recording the assignment — with sender_type
"system" in the callback-router path but "admin" in both admin-module
paths. -/
theorem assign_effects_by_path (db : DB) (now : Nat) (rid a : Int) (nm : String)
    (req : Request) (h : findRequest db rid = some req)
    (h0 : req.assigned_admin = none) (hp : req.status = "pending") :
    (cb_assign db now rid a nm).2 = .answered "Request assigned successfully" ∧
    findRequest (cb_assign db now rid a nm).1 rid =
      some { req with assigned_admin := some a, status := "assigned", updated_at := now } ∧
    (cb_assign db now rid a nm).1.messages =
      db.messages ++ [⟨db.nextMessageId, rid, a, "system",
        "Request assigned to admin " ++ nm, now⟩] ∧
    (assign_request db now rid a).2 = true ∧
    findRequest (assign_request db now rid a).1 rid =
      some { req with assigned_admin := some a, status := "in_progress", updated_at := now } ∧
    (assign_request db now rid a).1.messages =
      db.messages ++ [⟨db.nextMessageId, rid, a, "admin",
        "Request assigned to admin " ++ toString a, now⟩] ∧
    (handle_admin_assign db now rid a).2 =
      .edited ("You have been assigned to request #" ++ toString rid ++ ".") ∧
    findRequest (handle_admin_assign db now rid a).1 rid =
      some { req with status := "in_progress", assigned_admin := some a, updated_at := now } ∧
    (handle_admin_assign db now rid a).1.messages =
      db.messages ++ [⟨db.nextMessageId, rid, a, "admin",
        "I have taken ownership of this request and will assist you shortly.", now⟩] := by
  have hcb : cb_assign db now rid a nm =
      (⟨updateRequests db.requests rid
          (fun r => { r with
                      assigned_admin := some a, status := "assigned", updated_at := now }),
        db.messages ++ [⟨db.nextMessageId, rid, a, "system",
          "Request assigned to admin " ++ nm, now⟩],
        db.nextRequestId, db.nextMessageId + 1⟩,
        .answered "Request assigned successfully") := by
    simp [cb_assign, h, h0]
  have har : assign_request db now rid a =
      (⟨updateRequests db.requests rid
          (fun r => { r with
                      assigned_admin := some a, status := "in_progress", updated_at := now }),
        db.messages ++ [⟨db.nextMessageId, rid, a, "admin",
          "Request assigned to admin " ++ toString a, now⟩],
        db.nextRequestId, db.nextMessageId + 1⟩, true) := by
    simp [assign_request, h, h0, truthy]
  have hha : handle_admin_assign db now rid a =
      (⟨updateRequests db.requests rid
          (fun r => { r with
                      status := "in_progress", assigned_admin := some a, updated_at := now }),
        db.messages ++ [⟨db.nextMessageId, rid, a, "admin",
          "I have taken ownership of this request and will assist you shortly.", now⟩],
        db.nextRequestId, db.nextMessageId + 1⟩,
        .edited ("You have been assigned to request #" ++ toString rid ++ ".")) := by
    simp [handle_admin_assign, h, hp]
  refine ⟨by rw [hcb], ?_, by rw [hcb], by rw [har], ?_, by rw [har], by rw [hha], ?_,
    by rw [hha]⟩
  · have hf := findRequest_update db rid
      (fun r => { r with assigned_admin := some a, status := "assigned", updated_at := now })
      (db.messages ++ [⟨db.nextMessageId, rid, a, "system",
        "Request assigned to admin " ++ nm, now⟩])
      db.nextRequestId (db.nextMessageId + 1) (fun r => rfl)
    rw [h] at hf
    rw [hcb]
    exact hf
  · have hf := findRequest_update db rid
      (fun r => { r with assigned_admin := some a, status := "in_progress", updated_at := now })
      (db.messages ++ [⟨db.nextMessageId, rid, a, "admin",
        "Request assigned to admin " ++ toString a, now⟩])
      db.nextRequestId (db.nextMessageId + 1) (fun r => rfl)
    rw [h] at hf
    rw [har]
    exact hf
  · have hf := findRequest_update db rid
      (fun r => { r with status := "in_progress", assigned_admin := some a, updated_at := now })
      (db.messages ++ [⟨db.nextMessageId, rid, a, "admin",
        "I have taken ownership of this request and will assist you shortly.", now⟩])
      db.nextRequestId (db.nextMessageId + 1) (fun r => rfl)
    rw [h] at hf
    rw [hha]
    exact hf

/-- Witness for C3 (amended) on the sample ticket. -/
theorem assign_effects_by_path_witness :
    findRequest samplePending 1 = some ⟨1, 42, "app crashes", none, "pending", none, 0, 0⟩ ∧
    (cb_assign samplePending 9 1 5 "Ann").2 = .answered "Request assigned successfully" ∧
    (assign_request samplePending 9 1 5).2 = true := by
  refine ⟨by decide, ?_, ?_⟩
  · exact (assign_effects_by_path samplePending 9 1 5 "Ann"
      ⟨1, 42, "app crashes", none, "pending", none, 0, 0⟩ (by decide) rfl rfl).1
  · exact (assign_effects_by_path samplePending 9 1 5 "Ann"
      ⟨1, 42, "app crashes", none, "pending", none, 0, 0⟩ (by decide) rfl rfl).2.2.2.1

/-- C4 counterexample: assigning admin id 0 first and a distinct admin 7
second leaves assigned_admin equal to 7 and answers the success text on
the second call, because the supportbot guard tests Python truthiness of
the stored column and 0 is falsy. -/
theorem sb_assign_zero_admin_reassigned :
    (sb_assign (sb_assign samplePending 1 0).1 1 7).2 =
      .answered "✅ You have been assigned to this request!" ∧
    (findRequest (sb_assign (sb_assign samplePending 1 0).1 1 7).1 1).map
      (fun r => r.assigned_admin) = some (some 7) := by
  refine ⟨by decide, by decide⟩

/-- The supportbot assignment on a request whose stored admin is truthy
answers already-assigned and leaves the store untouched. -/
theorem sb_assign_already (db : DB) (rid b : Int) (req : Request)
    (h : findRequest db rid = some req) (ht : truthy req.assigned_admin = true) :
    sb_assign db rid b = (db, .answered "This request is already assigned to an admin.") := by
  simp [sb_assign, h, ht]

/-- The callback-router assignment on a request whose stored admin is set
answers already-assigned and leaves the store untouched. -/
theorem cb_assign_already (db : DB) (now : Nat) (rid b : Int) (nm : String) (req : Request)
    (h : findRequest db rid = some req) (ht : req.assigned_admin.isSome = true) :
    cb_assign db now rid b nm = (db, .answered "This request is already assigned") := by
  simp [cb_assign, h, ht]

/-- C4 (amended): after a first successful assignment to a nonzero admin,
a second assign by a different admin mutates nothing and reports the
already-assigned outcome, in both the supportbot path (whose truthiness
guard exempts admin id 0) and the callback-router path (whose
`is not None` guard needs no such restriction). -/
theorem second_assign_already_assigned (db : DB) (now now2 : Nat) (rid a b : Int)
    (nm nm2 : String) (req : Request) (h : findRequest db rid = some req)
    (h0 : req.assigned_admin = none) (ha : a ≠ 0) :
    sb_assign (sb_assign db rid a).1 rid b =
      ((sb_assign db rid a).1, .answered "This request is already assigned to an admin.") ∧
    (findRequest (sb_assign db rid a).1 rid).map (fun r => r.assigned_admin) =
      some (some a) ∧
    cb_assign (cb_assign db now rid a nm).1 now2 rid b nm2 =
      ((cb_assign db now rid a nm).1, .answered "This request is already assigned") ∧
    (findRequest (cb_assign db now rid a nm).1 rid).map (fun r => r.assigned_admin) =
      some (some a) := by
  have hsb1 : (sb_assign db rid a).1 =
      ⟨updateRequests db.requests rid
          (fun r => { r with assigned_admin := some a, status := "Assigned" }),
        db.messages, db.nextRequestId, db.nextMessageId⟩ := by
    simp [sb_assign, h, h0, truthy]
  have hfind1 : findRequest (sb_assign db rid a).1 rid =
      some { req with assigned_admin := some a, status := "Assigned" } := by
    have hf := findRequest_update db rid
      (fun r => { r with assigned_admin := some a, status := "Assigned" })
      db.messages db.nextRequestId db.nextMessageId (fun r => rfl)
    rw [h] at hf
    rw [hsb1]
    exact hf
  have hcb1 : (cb_assign db now rid a nm).1 =
      ⟨updateRequests db.requests rid
          (fun r => { r with
                      assigned_admin := some a, status := "assigned", updated_at := now }),
        db.messages ++ [⟨db.nextMessageId, rid, a, "system",
          "Request assigned to admin " ++ nm, now⟩],
        db.nextRequestId, db.nextMessageId + 1⟩ := by
    simp [cb_assign, h, h0]
  have hfind2 : findRequest (cb_assign db now rid a nm).1 rid =
      some { req with assigned_admin := some a, status := "assigned", updated_at := now } := by
    have hf := findRequest_update db rid
      (fun r => { r with assigned_admin := some a, status := "assigned", updated_at := now })
      (db.messages ++ [⟨db.nextMessageId, rid, a, "system",
        "Request assigned to admin " ++ nm, now⟩])
      db.nextRequestId (db.nextMessageId + 1) (fun r => rfl)
    rw [h] at hf
    rw [hcb1]
    exact hf
  refine ⟨?_, ?_, ?_, ?_⟩
  · exact sb_assign_already _ rid b _ hfind1 (bne_iff_ne.mpr ha)
  · rw [hfind1]
    rfl
  · exact cb_assign_already _ now2 rid b nm2 _ hfind2 rfl
  · rw [hfind2]
    rfl

/-- Witness for C4 (amended) on the sample ticket. -/
theorem second_assign_already_assigned_witness :
    findRequest samplePending 1 = some ⟨1, 42, "app crashes", none, "pending", none, 0, 0⟩ ∧
    (5 : Int) ≠ 0 ∧
    sb_assign (sb_assign samplePending 1 5).1 1 7 =
      ((sb_assign samplePending 1 5).1,
        .answered "This request is already assigned to an admin.") := by
  refine ⟨by decide, by decide, ?_⟩
  exact (second_assign_already_assigned samplePending 3 4 1 5 7 "Ann" "Bea"
    ⟨1, 42, "app crashes", none, "pending", none, 0, 0⟩ (by decide) rfl (by decide)).1

/-- Messages of one request in table order (the unfiltered thread query). -/
def threadMessages (db : DB) (rid : Int) : List Message :=
  db.messages.filter (fun m => decide (m.request_id = rid))

/-- Comparison used by ORDER BY timestamp ASC. -/
def tsLe (a b : Message) : Prop := a.timestamp ≤ b.timestamp

instance : DecidableRel tsLe := fun a b => Nat.decLe a.timestamp b.timestamp

instance : IsTotal Message tsLe := ⟨fun a b => Nat.le_total a.timestamp b.timestamp⟩

instance : IsTrans Message tsLe := ⟨fun _ _ _ h1 h2 => Nat.le_trans h1 h2⟩

/-- ORDER BY timestamp ASC, modeled as a stable sort on the timestamp. -/
def orderByTimestamp (l : List Message) : List Message := l.insertionSort tsLe

/-- Classification of the client-supplied since query parameter: absent or
empty, the literal string "undefined", a parseable ISO-8601 timestamp, or a
nonempty unparseable string. -/
inductive Since where
  | missing
  | undef
  | parsed (t : Nat)
  | unparseable
deriving Repr, DecidableEq

/-- GET /chat/.../messages on the chat router (`app/api/routes/chat.py
get_messages`).  A missing request returns the empty list, never an error;
a missing since or the literal "undefined" is replaced by the current time,
and a string all three parse attempts reject falls back to the current
time as well, so the cutoff is "now" in every non-parseable case. -/
def get_messages (db : DB) (request_id : Int) (since : Since) (now : Nat) :
    List Message :=
  match findRequest db request_id with
  | none => []
  | some _ =>
    let cutoff : Nat :=
      match since with
      | .missing => now
      | .undef => now
      | .parsed t => t
      | .unparseable => now
    orderByTimestamp
      ((threadMessages db request_id).filter (fun m => decide (cutoff < m.timestamp)))

/-- GET /support/chat/.../messages (`app/api/routes/support.py
get_messages_direct`).  A missing request raises HTTPException(404) and an
unparseable since HTTPException(400); both raises happen inside the `try`
whose blanket `except Exception` re-raises HTTPException(500), so the
client sees 500 (detail strings abstracted).  A missing/empty since is
falsy and skips the timestamp filter. -/
def get_messages_direct (db : DB) (request_id : Int) (since : Since) :
    ApiResp (List Message) :=
  match findRequest db request_id with
  | none =>
    .error 500 ("Error retrieving messages: Support request with ID " ++
      toString request_id ++ " not found")
  | some _ =>
    match since with
    | .missing => .ok (orderByTimestamp (threadMessages db request_id))
    | .parsed t =>
      .ok (orderByTimestamp
        ((threadMessages db request_id).filter (fun m => decide (t < m.timestamp))))
    | .undef =>
      .error 500 "Error retrieving messages: Invalid timestamp format. Use ISO format."
    | .unparseable =>
      .error 500 "Error retrieving messages: Invalid timestamp format. Use ISO format."

/-- The sample ticket with a two-message thread. -/
def sampleThread : DB :=
  ⟨[⟨1, 42, "app crashes", none, "pending", none, 0, 0⟩],
    [⟨1, 1, 42, "user", "app crashes", 3⟩, ⟨2, 1, 0, "system", "assigned to Ann", 5⟩],
    2, 3⟩

/-- C5 counterexample: with since omitted the chat-route listing does not
return the full thread: it substitutes "now" for the missing value and
returns the empty list, while the support-route listing does return the
full two-message thread. -/
theorem chat_omitted_since_not_full_thread :
    get_messages sampleThread 1 .missing 10 = [] ∧
    get_messages_direct sampleThread 1 .missing =
      .ok [⟨1, 1, 42, "user", "app crashes", 3⟩, ⟨2, 1, 0, "system", "assigned to Ann", 5⟩] := by
  refine ⟨by decide, by decide⟩

/-- C5 (amended): for an existing request and since=T, both listing routes
return exactly the messages of the thread with timestamp strictly greater
than T, in ascending timestamp order; with since omitted the support route
returns the whole thread in that order, while the chat route substitutes
the current time for the missing value and so filters against "now". -/
theorem list_messages_since_filter_sorted (db : DB) (rid : Int) (T now : Nat)
    (req : Request) (h : findRequest db rid = some req) :
    get_messages_direct db rid (.parsed T) = .ok (get_messages db rid (.parsed T) now) ∧
    (get_messages db rid (.parsed T) now).Perm
      ((threadMessages db rid).filter (fun m => decide (T < m.timestamp))) ∧
    List.Sorted tsLe (get_messages db rid (.parsed T) now) ∧
    get_messages_direct db rid .missing = .ok (orderByTimestamp (threadMessages db rid)) ∧
    (orderByTimestamp (threadMessages db rid)).Perm (threadMessages db rid) ∧
    List.Sorted tsLe (orderByTimestamp (threadMessages db rid)) ∧
    (get_messages db rid (.parsed T) now).Perm
      ((orderByTimestamp (threadMessages db rid)).filter
        (fun m => decide (T < m.timestamp))) ∧
    get_messages db rid .missing now = get_messages db rid (.parsed now) now := by
  have hget : get_messages db rid (.parsed T) now =
      orderByTimestamp
        ((threadMessages db rid).filter (fun m => decide (T < m.timestamp))) := by
    simp [get_messages, h]
  have hperm : (get_messages db rid (.parsed T) now).Perm
      ((threadMessages db rid).filter (fun m => decide (T < m.timestamp))) := by
    rw [hget]
    exact List.perm_insertionSort tsLe _
  refine ⟨?_, hperm, ?_, ?_, ?_, ?_, ?_, ?_⟩
  · simp [get_messages_direct, h, hget]
  · rw [hget]
    exact List.sorted_insertionSort tsLe _
  · simp [get_messages_direct, h]
  · exact List.perm_insertionSort tsLe _
  · exact List.sorted_insertionSort tsLe _
  · exact hperm.trans ((List.perm_insertionSort tsLe (threadMessages db rid)).filter _).symm
  · simp [get_messages, h]

/-- Witness for C5 (amended) on the sample thread with T = 3. -/
theorem list_messages_since_filter_sorted_witness :
    findRequest sampleThread 1 = some ⟨1, 42, "app crashes", none, "pending", none, 0, 0⟩ ∧
    get_messages sampleThread 1 (.parsed 3) 10 = [⟨2, 1, 0, "system", "assigned to Ann", 5⟩] ∧
    get_messages_direct sampleThread 1 (.parsed 3) =
      .ok (get_messages sampleThread 1 (.parsed 3) 10) := by
  refine ⟨by decide, by decide, ?_⟩
  exact (list_messages_since_filter_sorted sampleThread 1 3 10
    ⟨1, 42, "app crashes", none, "pending", none, 0, 0⟩ (by decide)).1

/-- C6 counterexample: polling the support-route listing for a request id
that does not exist yields an error response (the 404 raised inside the
handler, re-raised as 500 by its blanket exception clause), not the empty
array the claim promises for every request id. -/
theorem messages_direct_missing_request_errors :
    get_messages_direct DB.empty 999 .missing =
      .error 500 "Error retrieving messages: Support request with ID 999 not found" := by
  decide

/-- C6 (amended): the chat-route listing never errors — a missing request
yields the empty array for every since value, and a missing or unparseable
since falls back to "now" as the cutoff, which is the empty array whenever
no stored message has a timestamp in the future; the support-route listing
instead reports an error (an HTTPException re-raised as 500) for a missing
request or an unparseable since. -/
theorem messages_poll_lenient (db : DB) (rid rid2 : Int) (now : Nat) (since : Since)
    (req2 : Request) (hpast : ∀ m ∈ db.messages, m.timestamp ≤ now)
    (hnone : findRequest db rid = none) (hsome : findRequest db rid2 = some req2) :
    get_messages db rid since now = [] ∧
    get_messages_direct db rid since =
      .error 500 ("Error retrieving messages: Support request with ID " ++
        toString rid ++ " not found") ∧
    get_messages db rid2 .unparseable now = [] ∧
    get_messages db rid2 .missing now = [] ∧
    get_messages db rid2 .undef now = [] ∧
    get_messages_direct db rid2 .unparseable =
      .error 500 "Error retrieving messages: Invalid timestamp format. Use ISO format." := by
  have hempty :
      (threadMessages db rid2).filter (fun m => decide (now < m.timestamp)) = [] := by
    rw [List.filter_eq_nil_iff]
    intro m hm
    have hmem : m ∈ db.messages := (List.mem_filter.1 hm).1
    simp [Nat.not_lt.2 (hpast m hmem)]
  refine ⟨?_, ?_, ?_, ?_, ?_, ?_⟩
  · simp [get_messages, hnone]
  · simp [get_messages_direct, hnone]
  · simp [get_messages, hsome, hempty, orderByTimestamp]
  · simp [get_messages, hsome, hempty, orderByTimestamp]
  · simp [get_messages, hsome, hempty, orderByTimestamp]
  · simp [get_messages_direct, hsome]

/-- Witness for C6 (amended) on the sample thread. -/
theorem messages_poll_lenient_witness :
    (∀ m ∈ sampleThread.messages, m.timestamp ≤ 10) ∧
    findRequest sampleThread 999 = none ∧
    findRequest sampleThread 1 = some ⟨1, 42, "app crashes", none, "pending", none, 0, 0⟩ ∧
    get_messages sampleThread 999 .missing 10 = [] ∧
    get_messages sampleThread 1 .unparseable 10 = [] := by
  refine ⟨by decide, by decide, by decide, ?_, ?_⟩
  · exact (messages_poll_lenient sampleThread 999 1 10 .missing
      ⟨1, 42, "app crashes", none, "pending", none, 0, 0⟩ (by decide) (by decide)
      (by decide)).1
  · exact (messages_poll_lenient sampleThread 999 1 10 .missing
      ⟨1, 42, "app crashes", none, "pending", none, 0, 0⟩ (by decide) (by decide)
      (by decide)).2.2.1

/-- Best-effort admin-group notification (`app/bot/handlers/support.py
notify_admin_group`): an uninitialized bot client logs and returns False
without sending; a send failure is caught, logged and returns False; at
most one send attempt is ever made.  Result is (returned value, attempts
made). -/
def notify_admin_group (botInitialized : Bool) (sendOk : Bool) : Bool × Nat :=
  if !botInitialized then (false, 0)
  else if sendOk then (true, 1)
  else (false, 1)

/-- POST /support-request together with its background admin notification
(`app/api/routes/support.py create_request` schedules `notify_admin_group`
via BackgroundTasks, which runs only after the response is produced). -/
def create_request_notified (db : DB) (now : Nat) (user_id : Option Int)
    (issue : Option String) (botInitialized sendOk : Bool) :
    (DB × ApiResp Int) × (Bool × Nat) :=
  (create_request db now user_id issue,
    match (create_request db now user_id issue).2 with
    | .ok _ => notify_admin_group botInitialized sendOk
    | .error _ _ => (false, 0))

/-- Admin-group notification ladder of `supportbot.py collect_issue`
(lines 639-713): the first send failure is caught and the send immediately
re-attempted with adjusted button parameters; a second failure triggers a
final buttonless attempt that is itself unguarded.  Result is (attempts
made, whether an exception escapes the handler). -/
def sb_admin_notify (ok1 ok2 ok3 : Bool) : Nat × Bool :=
  if ok1 then (1, false)
  else if ok2 then (2, false)
  else (3, !ok3)

/-- C7 counterexample: when the first admin-group send in supportbot's
collect_issue fails, the handler immediately attempts the send again —
two attempts for one notification — contradicting the claim that a failed
send is never retried automatically. -/
theorem failed_admin_send_retried : (sb_admin_notify false true true).1 = 2 := by
  decide

/-- C7 (amended): a failed or impossible notification never changes the
committed data or the route's response (the background notification cannot
affect them), and `notify_admin_group` swallows the failure after at most
one attempt; but supportbot's collect_issue re-attempts a failed
admin-group send up to two more times within the same handler invocation
(still with no scheduled or queued retry). -/
theorem notification_best_effort (db : DB) (now : Nat) (user_id : Option Int)
    (issue : Option String) (botInitialized sendOk ok2 ok3 : Bool) :
    (create_request_notified db now user_id issue botInitialized sendOk).1 =
      create_request db now user_id issue ∧
    (notify_admin_group botInitialized sendOk).2 ≤ 1 ∧
    (notify_admin_group false sendOk).1 = false ∧
    (notify_admin_group botInitialized false).1 = false ∧
    2 ≤ (sb_admin_notify false ok2 ok3).1 ∧
    (sb_admin_notify false ok2 ok3).1 ≤ 3 := by
  refine ⟨rfl, ?_, ?_, ?_, ?_, ?_⟩ <;>
    cases botInitialized <;> cases sendOk <;> cases ok2 <;> cases ok3 <;>
      simp [notify_admin_group, sb_admin_notify]

/-- Python datetime fields (microsecond precision). -/
structure PyDateTime where
  year : Nat
  month : Nat
  day : Nat
  hour : Nat
  minute : Nat
  second : Nat
  microsecond : Nat
deriving Repr, DecidableEq

/-- Timezone designator of an emitted ISO-8601 string. -/
inductive TzSuffix where
  | z
  | utcOffset
  | naive
deriving Repr, DecidableEq

/-- Structured form of an emitted ISO-8601 timestamp string.  Rendering
these fields to text is injective, so byte-identity of two emitted strings
is equality of these records. -/
structure IsoTimestamp where
  dt : PyDateTime
  hasFraction : Bool
  suffix : TzSuffix
deriving Repr, DecidableEq

/-- datetime.isoformat() on an aware UTC value: the fractional part is
printed iff the microsecond is nonzero, the offset as "+00:00". -/
def isoformatUtc (t : PyDateTime) : IsoTimestamp := ⟨t, t.microsecond != 0, .utcOffset⟩

/-- datetime.isoformat() on a naive value: no offset designator at all. -/
def isoformatNaive (t : PyDateTime) : IsoTimestamp := ⟨t, t.microsecond != 0, .naive⟩

/-- str.replace("+00:00", "Z") on an emitted timestamp. -/
def replaceOffsetWithZ (s : IsoTimestamp) : IsoTimestamp :=
  { s with suffix := if s.suffix = .utcOffset then .z else s.suffix }

/-- str.replace("Z", "+00:00"), applied by the routes before parsing. -/
def replaceZWithOffset (s : IsoTimestamp) : IsoTimestamp :=
  { s with suffix := if s.suffix = .z then .utcOffset else s.suffix }

/-- datetime.fromisoformat on an emitted timestamp recovers its fields. -/
def fromisoformat (s : IsoTimestamp) : PyDateTime := s.dt

/-- Timestamp emission used throughout `app/api/routes/chat.py` (get_chat,
get_chat_list, send_message):
astimezone(timezone.utc).isoformat().replace("+00:00", "Z"); astimezone is
the identity on the UTC instants the models store. -/
def emitZ (t : PyDateTime) : IsoTimestamp := replaceOffsetWithZ (isoformatUtc t)

/-- The timestamps of a GET /chat/... response (`chat.py get_chat`):
request created_at and updated_at plus every message timestamp. -/
def get_chat_timestamps (created_at updated_at : PyDateTime)
    (msgTimes : List PyDateTime) : IsoTimestamp × IsoTimestamp × List IsoTimestamp :=
  (emitZ created_at, emitZ updated_at, msgTimes.map emitZ)

/-- The updated_at field of a PUT /requests/... response
(`app/api/routes/support.py update_request`): the handler sets updated_at
to datetime.utcnow(), a naive value, and emits it with plain isoformat(). -/
def update_request_timestamp (now : PyDateTime) : IsoTimestamp := isoformatNaive now

/-- C8 counterexample: the timestamp emitted by the support-route
update_request carries no timezone designator at all — in particular no
trailing "Z" — refuting the claim that every timestamp emitted at the API
boundary is ISO-8601 UTC with a trailing "Z". -/
theorem update_request_timestamp_lacks_z :
    (update_request_timestamp ⟨2025, 3, 4, 5, 6, 7, 0⟩).suffix = .naive ∧
    TzSuffix.naive ≠ TzSuffix.z := by
  refine ⟨rfl, by decide⟩

/-- C8 (amended): every timestamp emitted by the chat-route serializers is
ISO-8601 UTC with a trailing "Z" and re-parsing then re-serializing it
through the same formatting is the identity on the emitted string; but the
support-route update_request emits a naive isoformat() with no "Z". -/
theorem chat_timestamps_z_roundtrip (created_at updated_at t : PyDateTime)
    (msgTimes : List PyDateTime) :
    (get_chat_timestamps created_at updated_at msgTimes).1.suffix = .z ∧
    (get_chat_timestamps created_at updated_at msgTimes).2.1.suffix = .z ∧
    ((get_chat_timestamps created_at updated_at msgTimes).2.2.all
      (fun s => decide (s.suffix = .z))) = true ∧
    emitZ (fromisoformat (replaceZWithOffset (emitZ t))) = emitZ t ∧
    (update_request_timestamp t).suffix = .naive := by
  refine ⟨rfl, rfl, ?_, rfl, rfl⟩
  simp [get_chat_timestamps, emitZ, replaceOffsetWithZ, isoformatUtc, List.all_eq_true]

/-- C9 counterexample: the callback payload "assign_abc" passes the arity
check, so the unguarded int("abc") cast raises an uncaught ValueError and
the handler terminates abnormally instead of answering the callback. -/
theorem nonnumeric_callback_raises :
    (handle_callback_query DB.empty [] 0 "assign_abc" 5 "Ann" none).2.2 =
      CbOutcome.raised := by
  decide

/-- C9 (amended): the callback router splits on "_" and answers wrong-arity
payloads with "Invalid action" before any integer cast, without touching
the store; but a payload whose id field is not a valid integer makes the
unguarded int() cast raise an uncaught ValueError in both the router and
supportbot's assign_request (which validates no arity at all, so a
separator-free payload raises IndexError there). -/
theorem callback_arity_and_cast (db : DB) (admins : List (Int × String)) (now : Nat)
    (admin_id : Int) (nm : String) (solving : Option Int) (data data2 : String)
    (action p1 : String) (rest : List String)
    (hsplit : pySplit data '_' = action :: p1 :: rest) (hp : pyToInt p1 = none)
    (h2 : (pySplit data2 '_').length < 2) :
    handle_callback_query db admins now data admin_id nm solving =
      (db, solving, .raised) ∧
    sb_assign_request db data admin_id = (db, .raised) ∧
    handle_callback_query db admins now data2 admin_id nm solving =
      (db, solving, .answered "Invalid action") := by
  refine ⟨?_, ?_, ?_⟩
  · unfold handle_callback_query
    rw [hsplit]
    simp [hp]
  · unfold sb_assign_request
    rw [hsplit]
    simp [hp]
  · unfold handle_callback_query
    rcases hl : pySplit data2 '_' with _ | ⟨x, _ | ⟨y, l⟩⟩
    · rfl
    · rfl
    · rw [hl] at h2
      simp only [List.length_cons] at h2
      omega

/-- Witness for C9 (amended) on "assign_abc" and the arity-violating
payload "assign". -/
theorem callback_arity_and_cast_witness :
    pySplit "assign_abc" '_' = ["assign", "abc"] ∧
    pyToInt "abc" = none ∧
    (pySplit "assign" '_').length < 2 ∧
    sb_assign_request DB.empty "assign_abc" 5 = (DB.empty, .raised) ∧
    handle_callback_query DB.empty [] 0 "assign" 5 "Ann" none =
      (DB.empty, none, .answered "Invalid action") := by
  refine ⟨by decide, by decide, by decide, ?_, ?_⟩
  · exact (callback_arity_and_cast DB.empty [] 0 5 "Ann" none "assign_abc" "assign"
      "assign" "abc" [] (by decide) (by decide) (by decide)).2.1
  · exact (callback_arity_and_cast DB.empty [] 0 5 "Ann" none "assign_abc" "assign"
      "assign" "abc" [] (by decide) (by decide) (by decide)).2.2

/-- C10 (code bug): a falsy user_id (0) or issue ("") inserts no row in
either create endpoint; supportbot's handler answers the documented 400,
but the app-route create_request raises its HTTPException(400) inside a
`try` whose blanket `except Exception` converts it into a 500 response, so
the client never sees the 400 the claim (and the code's own raise)
specify. -/
theorem falsy_create_rejected_status :
    create_request DB.empty 5 (some 0) (some "help") =
      (DB.empty, .error 500 "Missing required fields") ∧
    create_request DB.empty 5 (some 1) (some "") =
      (DB.empty, .error 500 "Missing required fields") ∧
    create_request DB.empty 5 none (some "help") =
      (DB.empty, .error 500 "Missing required fields") ∧
    support_request_handler DB.empty 5 (some 0) (some "help") =
      (DB.empty, .error 400 "Missing user_id or issue") ∧
    support_request_handler DB.empty 5 (some 1) (some "") =
      (DB.empty, .error 400 "Missing user_id or issue") := by
  refine ⟨by decide, by decide, by decide, by decide, by decide⟩

end SupportBot
